import Mathlib

/-!
Verification of the connection-record lifecycle and webhook-dispatch core of
the plaid-webhooks demonstration server (`src/server.js`).

The embedding translates the Express handlers into pure Lean functions over an
explicit server state.  JavaScript promises that may reject are modelled as
`Except JsError`; a handler either answers with `res.json(...)` (`.json`) or
forwards an error to the centralized `errorHandler` via `next(error)`
(`.nextErr`).  The persisted file `user_data.json` is modelled as an optional
character list (`none` = the file does not exist, i.e. `ENOENT`).
`JSON.stringify` / `JSON.parse` of the user record are modelled character by
character on the record grammar that `JSON.stringify` emits for this record
shape; inputs outside that grammar make the parse fail, which the server's
`catch` turns into `null` exactly as an exception from `JSON.parse` would.
-/

namespace PlaidServer

/-- The persisted connection record: `accessToken` (string or `null`) and
`userStatus` (the JS code stores `"disconnected"` or `"connected"`).
Mirrors the object built at `src/server.js:66-74`. -/
structure UserRecord where
  accessToken : Option String
  userStatus : String
deriving DecidableEq

/-- The two field names `FIELD_ACCESS_TOKEN` / `FIELD_USER_STATUS`
(`src/server.js:18-19`) used as keys of `updateUserRecord`. -/
inductive Field where
  | accessToken
  | userStatus
deriving DecidableEq

/-- `userRecord[key] = val` (`src/server.js:81`).  Both call sites pass a
string value. -/
def setField (r : UserRecord) : Field → String → UserRecord
  | .accessToken, v => { r with accessToken := some v }
  | .userStatus, v => { r with userStatus := v }

/-- A JSON value, for HTTP response bodies and relayed remote error data. -/
inductive JVal where
  | jnull
  | jstr (s : String)
  | jint (n : Int)
  | jobj (fields : List (String × JVal))

/-- A thrown JavaScript error as seen by the centralized `errorHandler`:
the only part the handler inspects is `err.response?.data`
(`src/server.js:364`); `none` models both a missing `response` and a missing
`data`. -/
structure JsError where
  responseData : Option JVal

/-- `{"accessToken":` — the opening of the JSON text `JSON.stringify` emits
for the user record (keys in insertion order, `src/server.js:70-72,83`). -/
def keyHead : List Char := ['\x7b', '"', 'a', 'c', 'c', 'e', 's', 's', 'T', 'o', 'k', 'e', 'n', '"', ':']

/-- `,"userStatus":"` — the middle of the serialized record. -/
def keyMid : List Char := [',', '"', 'u', 's', 'e', 'r', 'S', 't', 'a', 't', 'u', 's', '"', ':', '"']

/-- The JSON literal `null`, serialization of a `null` access token. -/
def nullLit : List Char := ['n', 'u', 'l', 'l']

/-- JSON string escaping of one character, as `JSON.stringify` performs it on
characters at or above `0x20`: quote and backslash get a backslash prefix,
everything else is emitted verbatim. -/
def escChar (c : Char) : List Char :=
  if c = '"' ∨ c = '\\' then ['\\', c] else [c]

/-- JSON string escaping of a character sequence. -/
def escChars : List Char → List Char
  | [] => []
  | c :: cs => escChar c ++ escChars cs

/-- `JSON.stringify(userRecord)` (`src/server.js:83`) at character level:
`{"accessToken":<null or string>,"userStatus":"<string>"}`. -/
def stringifyRecordChars (r : UserRecord) : List Char :=
  keyHead ++
    (match r.accessToken with
      | none => nullLit
      | some t => '"' :: (escChars t.data ++ ['"'])) ++
    (keyMid ++ (escChars r.userStatus.data ++ ['"', '\x7d']))

/-- Consume an expected literal from the front of the input; `none` on
mismatch. -/
def dropLit : List Char → List Char → Option (List Char)
  | [], l => some l
  | _ :: _, [] => none
  | p :: ps, c :: cs => if c = p then dropLit ps cs else none

/-- Parse the body of a JSON string (after the opening quote) up to its
closing quote, undoing the escapes `escChars` produces; rejects raw control
characters and escapes other than `\"` and `\\`, as `JSON.parse` would reject
anything `JSON.stringify` did not emit here.  Returns the decoded characters
and the rest of the input. -/
def parseJString : List Char → Option (List Char × List Char)
  | [] => none
  | c :: cs =>
    if c = '"' then some ([], cs)
    else if c = '\\' then
      match cs with
      | [] => none
      | d :: ds =>
        if d = '"' ∨ d = '\\' then
          Option.map (fun p => (d :: p.1, p.2)) (parseJString ds)
        else none
    else if c.val < 0x20 then none
    else Option.map (fun p => (c :: p.1, p.2)) (parseJString cs)

/-- Parse the access-token position of the record: either the literal `null`
or a JSON string. -/
def parseTokenField (l : List Char) : Option (Option (List Char) × List Char) :=
  match dropLit nullLit l with
  | some l2 => some (none, l2)
  | none =>
    match l with
    | [] => none
    | c :: cs =>
      if c = '"' then Option.map (fun p => (some p.1, p.2)) (parseJString cs)
      else none

/-- `JSON.parse` (`src/server.js:52`) restricted to the record grammar that
`JSON.stringify` emits for the user record; any other input yields `none`,
modelling the exception path that `getUserRecord` catches. -/
def parseRecordChars (l : List Char) : Option UserRecord :=
  match dropLit keyHead l with
  | none => none
  | some l1 =>
    match parseTokenField l1 with
    | none => none
    | some (tok, l2) =>
      match dropLit keyMid l2 with
      | none => none
      | some l3 =>
        match parseJString l3 with
        | none => none
        | some (st, l4) =>
          if l4 = ['\x7d'] then
            some { accessToken := tok.map String.mk, userStatus := String.mk st }
          else none

/-- The mutable process state touched by the modelled handlers: the in-memory
`userRecord` (`src/server.js:66`), the contents of `user_data.json` (`none`
when the file does not exist), and the process-wide `webhookUrl`
(`src/server.js:21-22`). -/
structure ServerState where
  userRecord : UserRecord
  file : Option (List Char)
  webhookUrl : String
deriving DecidableEq

/-- Observable actions of one request handler, in program order. -/
inductive Event where
  | persist (contents : List Char) (ok : Bool)
  | logged (msg : String)
  | respond (body : JVal)

/-- How a handler ends: `res.json(body)` or `next(error)`. -/
inductive HandlerResult where
  | json (body : JVal)
  | nextErr (e : JsError)

/-- Result of one `updateUserRecord` call: the new server state, the events it
performed in order, and its promise outcome. -/
structure UpdateOut where
  state : ServerState
  events : List Event
  result : Except JsError Unit

/-- Result of one request handler: new state, events in order, response. -/
structure HandlerOut where
  state : ServerState
  events : List Event
  result : HandlerResult

/-- `updateUserRecord` (`src/server.js:80-92`): mutate the in-memory record,
then attempt to write its `JSON.stringify` to the file.  The `writeOk` flag is
the outcome of `fs.writeFile`; on failure the `catch` only logs — the promise
still resolves (`.ok ()`) in both branches, which is why `result` is
unconditionally `.ok ()`. -/
def updateUserRecord (key : Field) (val : String) (writeOk : Bool) (s : ServerState) : UpdateOut :=
  let r := setField s.userRecord key val
  let contents := stringifyRecordChars r
  if writeOk then
    { state := { s with userRecord := r, file := some contents },
      events := [.persist contents true, .logged "User record written to file."],
      result := .ok () }
  else
    { state := { s with userRecord := r },
      events := [.persist contents false, .logged "Got an error: "],
      result := .ok () }

/-- Body of the success response of `POST /server/swap_public_token`. -/
def successBody : JVal := .jobj [("status", .jstr "success")]

/-- `POST /server/swap_public_token` (`src/server.js:134-147`): exchange the
public token (`exchange` is the remote call's outcome), then update
`accessToken`, then `userStatus`, then respond `{status: "success"}`.  A
rejected exchange is caught and forwarded to `next`. -/
def swapPublicToken (exchange : Except JsError String) (w1 w2 : Bool) (s : ServerState) : HandlerOut :=
  match exchange with
  | .error e => { state := s, events := [], result := .nextErr e }
  | .ok tok =>
    let u1 := updateUserRecord .accessToken tok w1 s
    let u2 := updateUserRecord .userStatus "connected" w2 u1.state
    { state := u2.state,
      events := u1.events ++ u2.events ++ [.respond successBody],
      result := .json successBody }

/-- `getUserRecord` (`src/server.js:47-64`): read `user_data.json` and
`JSON.parse` it; a missing file (`ENOENT`) or a parse exception are both
caught and produce `null` (`none`). -/
def getUserRecord (file : Option (List Char)) : Option UserRecord :=
  match file with
  | none => none
  | some l => parseRecordChars l

/-- The from-scratch record built at startup (`src/server.js:70-72`). -/
def defaultRecord : UserRecord := { accessToken := none, userStatus := "disconnected" }

/-- Startup initialization (`src/server.js:66-74`): load the record, fall back
to `defaultRecord` when `getUserRecord` returned `null`. -/
def initUserRecord (file : Option (List Char)) : UserRecord :=
  (getUserRecord file).getD defaultRecord

/-- A nested remote error body carried by a thrown error (`requestBody.error`
in webhook payloads). -/
structure ErrInfo where
  error_message : String
deriving DecidableEq

/-- An inbound webhook request body, with the fields the handlers read.
`error := none` models a body without an `error` member: reading
`requestBody.error.error_message` then throws a `TypeError`. -/
structure WebhookBody where
  webhook_type : String
  webhook_code : String
  error : Option ErrInfo
  new_transactions : Int
  item_id : String
  asset_report_id : String
deriving DecidableEq

/-- The `TypeError` thrown by reading a property of `undefined`; it carries no
`response`, so the `errorHandler` sees no nested data. -/
def undefinedReadError : JsError := { responseData := none }

/-- `handleItemWebhook` (`src/server.js:278-307`): switch on the code, log.
The `"ERROR"` case reads `requestBody.error.error_message`, which throws when
the body has no `error` member. -/
def handleItemWebhook (code : String) (b : WebhookBody) : Except JsError (List String) :=
  if code = "ERROR" then
    match b.error with
    | none => .error undefinedReadError
    | some e => .ok ["I received this error: " ++ e.error_message ++ "| should probably ask this user to connect to their bank"]
  else if code = "NEW_ACCOUNTS_AVAILABLE" then
    .ok ["There are new accounts available at this Financial Institution! (Id: " ++ b.item_id ++ ") We might want to ask the user to share them with us"]
  else if code = "PENDING_EXPIRATION" then
    .ok ["We should tell our user to reconnect their bank with Plaid so there\x27s no disruption to their service"]
  else if code = "USER_PERMISSION_REVOKED" then
    .ok ["The user revoked access to this item. We should remove it from our records"]
  else if code = "WEBHOOK_UPDATE_ACKNOWLEDGED" then
    .ok ["Hooray! You found the right spot!"]
  else
    .ok ["Can\x27t handle webhook code " ++ code]

/-- `handleTransactionsWebhook` (`src/server.js:310-341`): switch on the code,
log; never throws (missing counts merely print as `undefined`). -/
def handleTransactionsWebhook (code : String) (b : WebhookBody) : Except JsError (List String) :=
  if code = "INITIAL_UPDATE" then
    .ok ["First patch of transactions are done. There\x27s " ++ toString b.new_transactions ++ " available"]
  else if code = "HISTORICAL_UPDATE" then
    .ok ["Historical transactions are done. There\x27s " ++ toString b.new_transactions ++ " available"]
  else if code = "DEFAULT_UPDATE" then
    .ok ["New data is here! There\x27s " ++ toString b.new_transactions ++ " available"]
  else if code = "TRANSACTIONS_REMOVED" then
    .ok ["Looks like a few transactions have been reversed and should be removed from our records"]
  else if code = "SYNC_UPDATES_AVAILABLE" then
    .ok ["There are new updates available for the Transactions Sync API"]
  else
    .ok ["Can\x27t handle webhook code " ++ code]

/-- `handleAssetsWebhook` (`src/server.js:343-359`): switch on the code, log.
The `"ERROR"` case reads `requestBody.error.error_message` and throws when the
body has no `error` member. -/
def handleAssetsWebhook (code : String) (b : WebhookBody) : Except JsError (List String) :=
  if code = "PRODUCT_READY" then
    .ok ["Looks like asset report " ++ b.asset_report_id ++ " is ready to download"]
  else if code = "ERROR" then
    match b.error with
    | none => .error undefinedReadError
    | some e => .ok ["I had an error generating this report: " ++ e.error_message]
  else
    .ok ["Can\x27t handle webhook code " ++ code]

/-- Body of the webhook acknowledgement response. -/
def receivedBody : JVal := .jobj [("status", .jstr "received")]

/-- The `switch (product)` of `POST /server/receive_webhook`
(`src/server.js:257-270`); the Plaid `WebhookType` enum values are the strings
`"ITEM"`, `"TRANSACTIONS"`, `"ASSETS"`. -/
def dispatchProduct (b : WebhookBody) : Except JsError (List String) :=
  if b.webhook_type = "ITEM" then handleItemWebhook b.webhook_code b
  else if b.webhook_type = "TRANSACTIONS" then handleTransactionsWebhook b.webhook_code b
  else if b.webhook_type = "ASSETS" then handleAssetsWebhook b.webhook_code b
  else .ok ["Can\x27t handle webhook product " ++ b.webhook_type]

/-- `POST /server/receive_webhook` (`src/server.js:248-276`): log the body,
dispatch on the product, respond `{status: "received"}`; an exception thrown
by a handler is caught by the surrounding `try` and forwarded to `next`.
Returns the state (which no branch touches), the log lines, and the result. -/
def receiveWebhook (b : WebhookBody) (s : ServerState) : ServerState × List String × HandlerResult :=
  match dispatchProduct b with
  | .ok logs => (s, "this is the webhook response" :: logs, .json receivedBody)
  | .error e => (s, ["this is the webhook response"], .nextErr e)

/-- `POST /server/update_webhook` (`src/server.js:229-243`): assign the new
URL to the process-wide `webhookUrl` first, then invoke the remote
`itemWebhookUpdate` (outcome `remote`); on success relay its data, on failure
forward to `next` — the URL assignment is not rolled back. -/
def updateWebhookHandler (newUrl : String) (remote : Except JsError JVal) (s : ServerState) : ServerState × HandlerResult :=
  let s1 := { s with webhookUrl := newUrl }
  match remote with
  | .ok data => (s1, .json data)
  | .error e => (s1, .nextErr e)

/-- Generic body of the centralized error responder. -/
def otherErrorBody : JVal :=
  .jobj [("error_code", .jstr "OTHER_ERROR"), ("error_message", .jstr "I got some other message on the server.")]

/-- An HTTP response produced by the centralized error responder. -/
structure HttpResponse where
  status : Nat
  body : JVal

/-- `errorHandler` (`src/server.js:361-373`): when the error carries
`response.data`, send it verbatim with status 500; otherwise send the generic
`OTHER_ERROR` body with status 500. -/
def errorHandler (err : JsError) : HttpResponse :=
  match err.responseData with
  | some d => { status := 500, body := d }
  | none => { status := 500, body := otherErrorBody }

/-- The connection invariant claimed by the specification:
`status == "connected"` iff `accessToken != null`. -/
def connInvariant (r : UserRecord) : Prop :=
  r.userStatus = "connected" ↔ r.accessToken ≠ none

instance (r : UserRecord) : Decidable (connInvariant r) :=
  inferInstanceAs (Decidable (_ ↔ _))

/-- Characters that `JSON.stringify` emits without a `\u` escape. -/
def stringSafe (s : String) : Prop := ∀ c ∈ s.data, ¬ c.val < 0x20

instance (s : String) : Decidable (stringSafe s) :=
  inferInstanceAs (Decidable (∀ c ∈ s.data, ¬ c.val < 0x20))

/-- Safety of the optional access token. -/
def optTokenSafe : Option String → Prop
  | none => True
  | some t => stringSafe t

instance (o : Option String) : Decidable (optTokenSafe o) :=
  match o with
  | none => isTrue trivial
  | some t => inferInstanceAs (Decidable (stringSafe t))

/-- A record whose fields survive JSON serialization under this model: no
control characters (those would be emitted as `\u` escapes). -/
def recordSafe (r : UserRecord) : Prop :=
  optTokenSafe r.accessToken ∧ stringSafe r.userStatus

instance (r : UserRecord) : Decidable (recordSafe r) :=
  inferInstanceAs (Decidable (_ ∧ _))

/-- A server state as after first startup: default record, no store file, the
default webhook URL from `src/server.js:21-22`. -/
def initialState : ServerState :=
  { userRecord := defaultRecord,
    file := none,
    webhookUrl := "https://www.example.com/server/plaid_webhook" }

/-- A webhook body with an unrecognized product type (Scenario D). -/
def unknownProductBody : WebhookBody :=
  { webhook_type := "FOO", webhook_code := "BAR", error := none,
    new_transactions := 0, item_id := "", asset_report_id := "" }

/-- An `ITEM` / `ERROR` webhook body that carries no `error` member. -/
def itemErrorNoPayload : WebhookBody :=
  { webhook_type := "ITEM", webhook_code := "ERROR", error := none,
    new_transactions := 0, item_id := "", asset_report_id := "" }

/-- The Scenario C webhook body: `ITEM` / `USER_PERMISSION_REVOKED`. -/
def revokedBody : WebhookBody :=
  { webhook_type := "ITEM", webhook_code := "USER_PERMISSION_REVOKED", error := none,
    new_transactions := 0, item_id := "", asset_report_id := "" }

/-- A server state holding a connected record. -/
def connectedState : ServerState :=
  { userRecord := { accessToken := some "access-sandbox-123", userStatus := "connected" },
    file := none,
    webhookUrl := "https://www.example.com/server/plaid_webhook" }

/-- The nested remote error body of Scenario E. -/
def itemLoginRequiredBody : JVal :=
  .jobj [("error_code", .jstr "ITEM_LOGIN_REQUIRED"),
         ("error_message", .jstr "the login details of this item have changed")]

theorem dropLit_self_append (pre rest : List Char) : dropLit pre (pre ++ rest) = some rest := by
  induction pre with
  | nil => rfl
  | cons p ps ih => simp [dropLit, ih]

theorem parseJString_cons (c : Char) (cs : List Char) :
    parseJString (c :: cs) =
      if c = '"' then some ([], cs)
      else if c = '\\' then
        match cs with
        | [] => none
        | d :: ds =>
          if d = '"' ∨ d = '\\' then
            Option.map (fun p => (d :: p.1, p.2)) (parseJString ds)
          else none
      else if c.val < 0x20 then none
      else Option.map (fun p => (c :: p.1, p.2)) (parseJString cs) := by
  rw [parseJString.eq_def]

theorem parseJString_escChars (s rest : List Char) (h : ∀ c ∈ s, ¬ c.val < 0x20) :
    parseJString (escChars s ++ ('"' :: rest)) = some (s, rest) := by
  induction s with
  | nil => simp [escChars, parseJString_cons]
  | cons c cs ih =>
    have hc : ¬ c.val < 0x20 := h c (by simp)
    have hcs : ∀ x ∈ cs, ¬ x.val < 0x20 := fun x hx => h x (by simp [hx])
    by_cases hq : c = '"' ∨ c = '\\'
    · simp only [escChars, escChar, if_pos hq, List.cons_append, List.append_assoc]
      rw [parseJString_cons]
      simp [parseJString_cons, hq, ih hcs, show ('\\' : Char) ≠ '"' by decide]
    · simp only [escChars, escChar, if_neg hq, List.cons_append, List.append_assoc]
      push_neg at hq
      rw [parseJString_cons]
      simp [hq.1, hq.2, hc, ih hcs]

theorem parseTokenField_null (rest : List Char) :
    parseTokenField (nullLit ++ rest) = some (none, rest) := by
  simp [parseTokenField, dropLit_self_append]

theorem parseTokenField_str (t rest : List Char) (h : ∀ c ∈ t, ¬ c.val < 0x20) :
    parseTokenField ('"' :: (escChars t ++ ('"' :: rest))) = some (some t, rest) := by
  have hnull : dropLit nullLit ('"' :: (escChars t ++ ('"' :: rest))) = none := by
    simp [nullLit, dropLit]
  simp [parseTokenField, hnull, parseJString_escChars t rest h]

theorem mk_data (s : String) : String.mk s.data = s := rfl

theorem parseRecordChars_stringify (r : UserRecord) (h : recordSafe r) :
    parseRecordChars (stringifyRecordChars r) = some r := by
  obtain ⟨a, st⟩ := r
  obtain ⟨h1, h2⟩ := h
  have hst : ∀ c ∈ st.data, ¬ c.val < 0x20 := h2
  cases a with
  | none =>
    simp only [stringifyRecordChars, List.append_assoc, List.cons_append,
      List.singleton_append]
    simp [parseRecordChars, dropLit_self_append, parseTokenField_null,
      parseJString_escChars st.data ['\x7d'] hst, mk_data]
  | some t =>
    have ht : ∀ c ∈ t.data, ¬ c.val < 0x20 := h1
    simp only [stringifyRecordChars, List.append_assoc, List.cons_append,
      List.singleton_append]
    simp [parseRecordChars, dropLit_self_append,
      parseTokenField_str t.data (keyMid ++ (escChars st.data ++ ['"', '\x7d'])) ht,
      parseJString_escChars st.data ['\x7d'] hst, mk_data]

/-- Claim C1 (counterexample): the biconditional `status == "connected" iff
accessToken != null` is not preserved by every completed update operation.
`defaultRecord` (reachable after startup with a missing store) satisfies it,
but the swap handler's first completed `updateUserRecord` call — setting
`accessToken` while `userStatus` is still `"disconnected"`
(`src/server.js:140`) — produces a reachable record that violates it. -/
theorem connected_iff_token_update_not_preserved :
    connInvariant defaultRecord ∧
    ¬ connInvariant
        (updateUserRecord .accessToken "access-sandbox-123" true initialState).state.userRecord := by
  decide

/-- Claim C1 (amended): the biconditional holds after startup initialization
from a missing or unparsable store, and again once the swap handler has
completed both of its updates; but the individual `accessToken` update in
between does not preserve it. -/
theorem connected_iff_token_init_and_swap (l : List Char) (tok : String) (w1 w2 : Bool)
    (s : ServerState) :
    connInvariant (initUserRecord none) ∧
    (parseRecordChars l = none → connInvariant (initUserRecord (some l))) ∧
    connInvariant ((swapPublicToken (.ok tok) w1 w2 s).state.userRecord) := by
  refine ⟨by decide, fun hl => ?_, ?_⟩
  · simp [initUserRecord, getUserRecord, hl, defaultRecord, connInvariant]
  · cases w1 <;> cases w2 <;>
      simp [swapPublicToken, updateUserRecord, setField, connInvariant]

/-- Witness for the amended C1 theorem at a concrete unparsable store. -/
theorem connected_iff_token_init_witness :
    parseRecordChars ['g', 'a', 'r', 'b', 'a', 'g', 'e'] = none ∧
    connInvariant (initUserRecord (some ['g', 'a', 'r', 'b', 'a', 'g', 'e'])) :=
  ⟨by decide,
    (connected_iff_token_init_and_swap ['g', 'a', 'r', 'b', 'a', 'g', 'e'] "t" true true
      initialState).2.1 (by decide)⟩

/-- Claim C2: on a successful exchange with successful writes, the swap
handler persists the record with the new `accessToken` (old status) first,
then the record with `status = "connected"`, then responds
`{status: "success"}`; afterwards memory and store hold exactly
`{accessToken: tok, userStatus: "connected"}` (`src/server.js:134-147`). -/
theorem swap_success_persists_in_order (tok : String) (s : ServerState) :
    (swapPublicToken (.ok tok) true true s).state.userRecord =
      { accessToken := some tok, userStatus := "connected" } ∧
    (swapPublicToken (.ok tok) true true s).state.file =
      some (stringifyRecordChars { accessToken := some tok, userStatus := "connected" }) ∧
    (swapPublicToken (.ok tok) true true s).result = .json successBody ∧
    (swapPublicToken (.ok tok) true true s).events =
      [.persist (stringifyRecordChars { accessToken := some tok, userStatus := s.userRecord.userStatus }) true,
       .logged "User record written to file.",
       .persist (stringifyRecordChars { accessToken := some tok, userStatus := "connected" }) true,
       .logged "User record written to file.",
       .respond successBody] := by
  obtain ⟨⟨a, st⟩, f, w⟩ := s
  simp [swapPublicToken, updateUserRecord, setField]

/-- Claim C3 (counterexample): the acknowledgement is not unconditional.  A
structurally parsed `ITEM` / `ERROR` body without an `error` member makes
`handleItemWebhook` read a property of `undefined` (`src/server.js:282`); the
`try` in the route catches the `TypeError` and forwards it to `next`, so the
sender gets the error response, not `{status: "received"}`. -/
theorem receive_webhook_item_error_not_acked :
    (receiveWebhook itemErrorNoPayload initialState).2.2 = .nextErr undefinedReadError ∧
    (receiveWebhook itemErrorNoPayload initialState).2.2 ≠ .json receivedBody := by
  constructor
  · rfl
  · simp +decide [receiveWebhook, dispatchProduct, handleItemWebhook, itemErrorNoPayload]

/-- Claim C3 (amended): whenever the product handler completes without
throwing — in particular for every unrecognized product type, which is only
logged — the dispatcher responds `{status: "received"}`; an exception thrown
inside a handler (reading `error.error_message` from a body without `error`)
is instead forwarded to the centralized error responder. -/
theorem receive_webhook_acks_unless_handler_throws (b : WebhookBody) (s : ServerState) :
    (∀ logs, dispatchProduct b = .ok logs → (receiveWebhook b s).2.2 = .json receivedBody) ∧
    (¬(b.webhook_type = "ITEM" ∨ b.webhook_type = "TRANSACTIONS" ∨ b.webhook_type = "ASSETS") →
      dispatchProduct b = .ok ["Can\x27t handle webhook product " ++ b.webhook_type] ∧
      (receiveWebhook b s).2.2 = .json receivedBody) := by
  constructor
  · intro logs hok
    simp [receiveWebhook, hok]
  · intro hun
    push_neg at hun
    obtain ⟨h1, h2, h3⟩ := hun
    have hd : dispatchProduct b = .ok ["Can\x27t handle webhook product " ++ b.webhook_type] := by
      simp [dispatchProduct, h1, h2, h3]
    exact ⟨hd, by simp [receiveWebhook, hd]⟩

/-- Witness for the amended C3 theorem at the Scenario D body
(`webhook_type: "FOO"`). -/
theorem receive_webhook_acks_witness :
    dispatchProduct unknownProductBody =
      .ok ["Can\x27t handle webhook product " ++ unknownProductBody.webhook_type] ∧
    (receiveWebhook unknownProductBody initialState).2.2 = .json receivedBody :=
  (receive_webhook_acks_unless_handler_throws unknownProductBody initialState).2 (by decide)

/-- Claim C4: the centralized error responder answers with status 500 and the
nested `response.data` verbatim when present, else with the generic
`OTHER_ERROR` body and the same status (`src/server.js:361-373`). -/
theorem error_handler_relays_nested_or_generic (e : JsError) :
    (∀ d, e.responseData = some d → errorHandler e = { status := 500, body := d }) ∧
    (e.responseData = none → errorHandler e = { status := 500, body := otherErrorBody }) := by
  constructor
  · intro d hd
    simp [errorHandler, hd]
  · intro hn
    simp [errorHandler, hn]

/-- Witness for the C4 theorem at the Scenario E nested
`ITEM_LOGIN_REQUIRED` error body. -/
theorem error_handler_item_login_required_witness :
    errorHandler { responseData := some itemLoginRequiredBody } =
      { status := 500, body := itemLoginRequiredBody } :=
  (error_handler_relays_nested_or_generic { responseData := some itemLoginRequiredBody }).1
    itemLoginRequiredBody rfl

/-- Claim C5: startup on a missing store and on an unparsable store both
proceed with the default record `{accessToken: null, status: "disconnected"}`
— `getUserRecord` catches both failure modes and returns `null`, which the
initializer replaces by the default (`src/server.js:47-74`). -/
theorem load_missing_or_corrupt_defaults (l : List Char) :
    initUserRecord none = defaultRecord ∧
    (parseRecordChars l = none → initUserRecord (some l) = defaultRecord) := by
  refine ⟨rfl, fun hl => ?_⟩
  simp [initUserRecord, getUserRecord, hl]

/-- Witness for the C5 theorem at a concrete unparsable store content. -/
theorem load_corrupt_defaults_witness :
    parseRecordChars "not json".data = none ∧
    initUserRecord (some "not json".data) = defaultRecord :=
  ⟨by decide, (load_missing_or_corrupt_defaults "not json".data).2 (by decide)⟩

/-- Claim C6 (counterexample): a failed save is not surfaced to the caller.
The `catch` in `updateUserRecord` (`src/server.js:89-91`) only logs, so the
call still resolves normally (`.ok ()`, never an `Except.error`) while the
in-memory record holds the new value and the store is left unchanged. -/
theorem update_save_failure_not_surfaced :
    (updateUserRecord .accessToken "access-sandbox-123" false initialState).result =
      .ok () ∧
    (updateUserRecord .accessToken "access-sandbox-123" false initialState).state.userRecord.accessToken =
      some "access-sandbox-123" ∧
    (updateUserRecord .accessToken "access-sandbox-123" false initialState).state.file =
      initialState.file :=
  ⟨rfl, rfl, rfl⟩

/-- Claim C6 (amended): when the save fails, the failure is logged and
swallowed — the caller's call completes normally with no error surfaced —,
the process does not crash, and the in-memory value just written remains
current while the store is unchanged. -/
theorem update_save_failure_logged_memory_current (key : Field) (val : String) (s : ServerState) :
    (updateUserRecord key val false s).result = .ok () ∧
    (updateUserRecord key val false s).state.userRecord = setField s.userRecord key val ∧
    (updateUserRecord key val false s).state.file = s.file ∧
    (updateUserRecord key val false s).events =
      [.persist (stringifyRecordChars (setField s.userRecord key val)) false,
       .logged "Got an error: "] := by
  simp [updateUserRecord]

/-- Claim C7: evaluating the code at the failing input.  Dispatching the
`ITEM` / `USER_PERMISSION_REVOKED` webhook on a connected record leaves the
record (and the whole state) unchanged and merely acknowledges — the case at
`src/server.js:295-299` only logs, it never performs the required
`connected -> disconnected` transition. -/
theorem revoked_webhook_leaves_record_unchanged :
    (receiveWebhook revokedBody connectedState).1 = connectedState ∧
    (receiveWebhook revokedBody connectedState).1.userRecord ≠
      { accessToken := none, userStatus := "disconnected" } ∧
    (receiveWebhook revokedBody connectedState).2.2 = .json receivedBody := by
  refine ⟨rfl, by decide, rfl⟩

/-- Claim C9: webhook dispatch is state-frame-preserving — for every body and
every starting state, the in-memory record, the store file and the webhook
URL are exactly as before; the product handlers only produce log lines
(`src/server.js:248-359`). -/
theorem receive_webhook_frame (b : WebhookBody) (s : ServerState) :
    (receiveWebhook b s).1 = s := by
  rcases hd : dispatchProduct b with e | logs <;> simp [receiveWebhook, hd]

/-- Claim C10: the update-webhook handler assigns the new URL to the
process-wide `webhookUrl` before the remote call (`src/server.js:231`), so on
a failed remote call it forwards the error (which the centralized responder
turns into a 500) while `webhookUrl` keeps the new value. -/
theorem update_webhook_url_retained_on_error (newUrl : String) (e : JsError) (s : ServerState) :
    (updateWebhookHandler newUrl (.error e) s).1.webhookUrl = newUrl ∧
    (updateWebhookHandler newUrl (.error e) s).2 = .nextErr e ∧
    (errorHandler e).status = 500 := by
  refine ⟨rfl, rfl, ?_⟩
  obtain ⟨d⟩ := e
  cases d <;> rfl

/-- Claim C8: for every record whose fields survive JSON serialization (no
control characters, which would take the `\u`-escape path of
`JSON.stringify`), saving the serialized record and loading it back yields
the original record. -/
theorem save_load_roundtrip (r : UserRecord) (h : recordSafe r) :
    getUserRecord (some (stringifyRecordChars r)) = some r :=
  parseRecordChars_stringify r h

/-- Witness for the C8 theorem at a concrete connected record. -/
theorem save_load_roundtrip_witness :
    recordSafe { accessToken := some "access-sandbox-abc123", userStatus := "connected" } ∧
    getUserRecord (some (stringifyRecordChars
        { accessToken := some "access-sandbox-abc123", userStatus := "connected" })) =
      some { accessToken := some "access-sandbox-abc123", userStatus := "connected" } :=
  ⟨by decide, save_load_roundtrip _ (by decide)⟩

end PlaidServer
